import Mathlib

/-!
Shallow embedding of the Jira client core of this repository
(`backend/src/llm/jiraClient.ts` and the disconnect handler in
`backend/src/routes/jira.ts`), together with proofs of the specified
properties of the connect/fetch/fallback protocol, the session-state
model, and the rich-text extractor.

JavaScript runtime values that flow through the client are modelled by
the `Json` type below (JSON numbers are modelled as integers; no claim
involves numeric payloads).  `Option Json` models a possibly-`undefined`
value; property access on `null` raises a `TypeError`, mirrored by
`jsGet` returning an `Except`.  The platform primitives `fetch` and
`JSON.parse` are modelled as an environment: each network attempt is
given a `FetchOutcome` that carries either a thrown transport error or
an HTTP response together with the parse result of its body text.
-/

namespace GenAI

/-- A thrown JavaScript `Error` value, reduced to its message. -/
structure JsError where
  message : String
deriving DecidableEq, Repr

/-- JavaScript display form `String(errorValue)` of an `Error`: the name
`Error`, then a colon and the message when the message is nonempty. -/
def JsError.toDisplay (e : JsError) : String :=
  if e.message = "" then "Error" else "Error: " ++ e.message

/-- JSON-like runtime values (JavaScript values reachable from parsed
JSON payloads). -/
inductive Json where
  | null
  | bool (b : Bool)
  | num (n : Int)
  | str (s : String)
  | arr (elems : List Json)
  | obj (fields : List (String × Json))

/-- JavaScript truthiness of a defined value. -/
def Json.truthy : Json → Bool
  | .null => false
  | .bool b => b
  | .num n => n != 0
  | .str s => s != ""
  | .arr _ => true
  | .obj _ => true

/-- Truthiness of a possibly-`undefined` value (`none` = `undefined`). -/
def jsTruthy : Option Json → Bool
  | none => false
  | some v => v.truthy

/-- Test `typeof v === "string"`. -/
def jsTypeofString : Json → Bool
  | .str _ => true
  | _ => false

/-- Test `typeof v === "object"` (true for `null`, arrays and plain objects). -/
def jsTypeofObject : Json → Bool
  | .null => true
  | .arr _ => true
  | .obj _ => true
  | _ => false

/-- Property access `v[k]`: yields `undefined` (`none`) on a primitive or
a missing key, and throws a `TypeError` when the receiver is `null`. -/
def jsGet : Json → String → Except JsError (Option Json)
  | .null, _ => .error ⟨"TypeError: Cannot read properties of null"⟩
  | .obj fields, k => .ok (fields.lookup k)
  | _, _ => .ok none

mutual

/-- JavaScript string coercion `String(v)` for the values of `Json`. -/
def jsToString : Json → String
  | .null => "null"
  | .bool b => if b then "true" else "false"
  | .num n => toString n
  | .str s => s
  | .arr xs => jsArrJoin xs
  | .obj _ => "[object Object]"

/-- JavaScript `Array.prototype.toString`: elements joined by commas, `null`
rendered as the empty string. -/
def jsArrJoin : List Json → String
  | [] => ""
  | [x] => jsJoinElem x
  | x :: y :: xs => jsJoinElem x ++ "," ++ jsArrJoin (y :: xs)

/-- A single element inside an array join (`null` becomes empty). -/
def jsJoinElem : Json → String
  | .null => ""
  | .bool b => if b then "true" else "false"
  | .num n => toString n
  | .str s => s
  | .arr xs => jsArrJoin xs
  | .obj _ => "[object Object]"

end

/-- Iteration `for (x of v)`: arrays iterate their elements, strings iterate
single-character strings, anything else throws a `TypeError`. -/
def jsForOf : Json → Except JsError (List Json)
  | .arr xs => .ok xs
  | .str s => .ok (s.data.map fun c => Json.str (String.singleton c))
  | _ => .error ⟨"TypeError: value is not iterable"⟩

/-- Does `block.type === "paragraph"` hold for the accessed value? -/
def isParagraphType : Option Json → Bool
  | some (.str s) => s == "paragraph"
  | _ => false

/-- Inner loop of `extractTextFromADF`: `for (inline of block.content)
{ if (inline.text) text += inline.text }`. -/
def adfInlineFold : List Json → String → Except JsError String
  | [], acc => .ok acc
  | inl :: rest, acc =>
    match jsGet inl "text" with
    | .error e => .error e
    | .ok t =>
      adfInlineFold rest (if jsTruthy t then acc ++ jsToString (t.getD .null) else acc)

/-- Outer loop of `extractTextFromADF`: for each block, when
`block.type === "paragraph" && block.content` holds, fold the inline
elements and append a newline. -/
def adfBlockFold : List Json → String → Except JsError String
  | [], acc => .ok acc
  | block :: rest, acc =>
    match jsGet block "type" with
    | .error e => .error e
    | .ok ty =>
      if isParagraphType ty then
        match jsGet block "content" with
        | .error e => .error e
        | .ok bc =>
          if jsTruthy bc then
            match jsForOf (bc.getD .null) with
            | .error e => .error e
            | .ok inlines =>
              match adfInlineFold inlines acc with
              | .error e => .error e
              | .ok acc2 => adfBlockFold rest (acc2 ++ "\n")
          else adfBlockFold rest acc
      else adfBlockFold rest acc

/-- JavaScript `text.trim()`: removes leading and trailing whitespace, modelled at
the character level (the characters of `Char.isWhitespace` cover the
whitespace occurring in the payloads considered here). -/
def jsTrim (s : String) : String :=
  String.mk (((s.data.dropWhile Char.isWhitespace).reverse.dropWhile
    Char.isWhitespace).reverse)

/-- Method `JiraClient.extractTextFromADF`: walks `adfContent.content`,
concatenating the text of inline elements of paragraph blocks, with a
newline after each paragraph, and trims the final result. -/
def extractTextFromADF (adfContent : Json) : Except JsError String :=
  match jsGet adfContent "content" with
  | .error e => .error e
  | .ok c =>
    if jsTruthy c then
      match jsForOf (c.getD .null) with
      | .error e => .error e
      | .ok blocks =>
        match adfBlockFold blocks "" with
        | .error e => .error e
        | .ok text => .ok (jsTrim text)
    else .ok (jsTrim "")

/-- The record produced by `JiraClient.extractStoryDetails`.  `key` may
be `undefined` when the remote record lacks one; `title` and
`acceptanceCriteria` are raw runtime values (the code assigns
`fields.customfield_10046` without conversion), while `description` is
always a string on every non-throwing path. -/
structure JiraStoryDetails where
  key : Option Json
  title : Json
  description : String
  acceptanceCriteria : Json

/-- Method `JiraClient.extractStoryDetails`, parameterised by the rich-text
extractor so that independence from the extractor can be stated.  The
body mirrors the source line by line: `fields = data.fields || {}`;
`description` from the string branch, else the ADF branch, else empty;
`acceptanceCriteria = fields.customfield_10046` when truthy (copied
raw); `title = fields.summary || empty`. -/
def extractStoryDetailsWith (extractor : Json → Except GenAI.JsError String)
    (data : Json) : Except JsError JiraStoryDetails :=
  match jsGet data "fields" with
  | .error e => .error e
  | .ok fieldsOpt =>
    let fields := if jsTruthy fieldsOpt then fieldsOpt.getD .null else Json.obj []
    match jsGet fields "description" with
    | .error e => .error e
    | .ok descOpt =>
      let dv := descOpt.getD .null
      let descrExc : Except JsError String :=
        if jsTruthy descOpt && jsTypeofString dv then
          .ok (match dv with | .str s => s | _ => "")
        else if jsTruthy descOpt && jsTypeofObject dv then
          match jsGet dv "content" with
          | .error e => .error e
          | .ok c => if jsTruthy c then extractor dv else .ok ""
        else .ok ""
      match descrExc with
      | .error e => .error e
      | .ok description =>
        match jsGet fields "customfield_10046" with
        | .error e => .error e
        | .ok acOpt =>
          let acceptanceCriteria := if jsTruthy acOpt then acOpt.getD .null else .str ""
          match jsGet data "key" with
          | .error e => .error e
          | .ok keyOpt =>
            match jsGet fields "summary" with
            | .error e => .error e
            | .ok summaryOpt =>
              .ok { key := keyOpt
                    title := if jsTruthy summaryOpt then summaryOpt.getD .null else .str ""
                    description
                    acceptanceCriteria }

/-- Method `JiraClient.extractStoryDetails` with the rich-text extractor of the
source. -/
def extractStoryDetails (data : Json) : Except JsError JiraStoryDetails :=
  extractStoryDetailsWith extractTextFromADF data

/-- The private mutable fields of `JiraClient`. -/
structure ClientState where
  baseUrl : String
  email : String
  apiToken : String
  isConnected : Bool
deriving DecidableEq, Repr

/-- The constructor state: all fields empty, not connected. -/
def ClientState.init : ClientState := ⟨"", "", "", false⟩

/-- Normalization `baseUrl.replace(/\/$/, "")`: strips exactly one trailing slash when
one is present (the regex matches one slash at the end of the string). -/
def stripTrailingSlash (s : String) : String :=
  if s.data.getLast? = some '/' then String.mk s.data.dropLast else s

/-- An HTTP response as the transport layer surfaces it: the 2xx flag,
status code, status text, raw body text, and the outcome of applying the
platform JSON parser to that body text (supplied by the environment,
since `JSON.parse` is a platform primitive, not repository code). -/
structure HttpResponse where
  ok : Bool
  status : Nat
  statusText : String
  bodyText : String
  bodyJson : Except JsError Json

/-- The outcome the environment assigns to one `fetch` call: either the
promise rejects (transport error) or a response arrives. -/
inductive FetchOutcome where
  | throw (e : JsError)
  | resp (r : HttpResponse)

/-- Did the probe `fetch` succeed with a 2xx response? -/
def probeOk : FetchOutcome → Bool
  | .throw _ => false
  | .resp r => r.ok

/-- Method `JiraClient.connect`: stores the normalized base URL, the email and
the API token, then probes `GET {base}/rest/api/3/myself`; the connected
flag is set from the probe outcome and the same boolean is returned.
The `try`/`catch` of the source swallows transport errors, so the
function is total: it never raises to the caller. -/
def connect (s : ClientState) (baseUrl email apiToken : String)
    (probe : FetchOutcome) : ClientState × Bool :=
  let s1 : ClientState :=
    { baseUrl := stripTrailingSlash baseUrl, email := email, apiToken := apiToken
      isConnected := s.isConnected }
  match probe with
  | .throw _ => ({ s1 with isConnected := false }, false)
  | .resp r =>
    if r.ok then ({ s1 with isConnected := true }, true)
    else ({ s1 with isConnected := false }, false)

/-- Method `JiraClient.isConnectedToJira`. -/
def isConnectedToJira (s : ClientState) : Bool := s.isConnected

/-- Method `JiraClient.getConnectionInfo`: `null` when not connected, otherwise
the pair of stored base URL and email (the token is never part of the
result). -/
def getConnectionInfo (s : ClientState) : Option (String × String) :=
  if s.isConnected then some (s.baseUrl, s.email) else none

/-- Fallback `someError?.message || String(someError)`: the message when it is a
nonempty string, otherwise the display form of the error (for an `Error`
with empty message that is the bare string `Error`). -/
def errFallbackMsg (e : JsError) : String :=
  if e.message = "" then e.toDisplay else e.message

/-- One outbound HTTP request, as recorded for the network-call trace. -/
structure NetCall where
  method : String
  url : String
deriving DecidableEq, Repr

/-- Method `JiraClient.getStoriesV3`: POSTs the fixed JQL search to the v3
endpoint; a non-2xx response throws a tagged error carrying status,
status text and body text; on 2xx the body is parsed and
`data.issues || []` is returned.  The second component is the list of
network calls issued. -/
def getStoriesV3 (s : ClientState) (out : FetchOutcome) :
    Except JsError Json × List NetCall :=
  let call : NetCall := ⟨"POST", s.baseUrl ++ "/rest/api/3/search/jql"⟩
  match out with
  | .throw e => (.error e, [call])
  | .resp r =>
    if r.ok then
      match r.bodyJson with
      | .error e => (.error e, [call])
      | .ok data =>
        match jsGet data "issues" with
        | .error e => (.error e, [call])
        | .ok issuesOpt =>
          (.ok (if jsTruthy issuesOpt then issuesOpt.getD .null else .arr []), [call])
    else
      (.error ⟨"Failed to fetch stories (API v3): " ++ toString r.status ++ " "
        ++ r.statusText ++ " - " ++ r.bodyText⟩, [call])

/-- Method `JiraClient.getStoriesV2`: identical to the v3 variant except for
the path segment and the dialect tag in the error message. -/
def getStoriesV2 (s : ClientState) (out : FetchOutcome) :
    Except JsError Json × List NetCall :=
  let call : NetCall := ⟨"POST", s.baseUrl ++ "/rest/api/2/search/jql"⟩
  match out with
  | .throw e => (.error e, [call])
  | .resp r =>
    if r.ok then
      match r.bodyJson with
      | .error e => (.error e, [call])
      | .ok data =>
        match jsGet data "issues" with
        | .error e => (.error e, [call])
        | .ok issuesOpt =>
          (.ok (if jsTruthy issuesOpt then issuesOpt.getD .null else .arr []), [call])
    else
      (.error ⟨"Failed to fetch stories (API v2): " ++ toString r.status ++ " "
        ++ r.statusText ++ " - " ++ r.bodyText⟩, [call])

/-- The not-connected error thrown by `getStories` and
`getStoryDetails`. -/
def notConnectedError : JsError :=
  ⟨"Not connected to Jira. Please connect first."⟩

/-- Method `JiraClient.getStories`: requires the connected flag, tries v3,
falls back to v2 on any thrown error, and when both fail throws a single
aggregated error whose message carries both dialect messages.  `o3` and
`o2` are the environment outcomes for the two possible fetches; the v2
fetch is only issued (and only appears in the trace) after a v3
failure. -/
def getStories (s : ClientState) (o3 o2 : FetchOutcome) :
    Except JsError Json × List NetCall :=
  if s.isConnected then
    match getStoriesV3 s o3 with
    | (.ok v, c3) => (.ok v, c3)
    | (.error e3, c3) =>
      match getStoriesV2 s o2 with
      | (.ok v, c2) => (.ok v, c3 ++ c2)
      | (.error e2, c2) =>
        (.error ⟨"Failed to fetch stories: v3: " ++ errFallbackMsg e3
          ++ "; v2: " ++ errFallbackMsg e2⟩, c3 ++ c2)
  else
    (.error notConnectedError, [])

/-- Method `JiraClient.getStoryDetailsV3`: GETs the single issue with the fixed
field list, throws a tagged error on non-2xx, and otherwise parses the
body and runs `extractStoryDetails` (whose own throws propagate to the
caller and hence into the fallback). -/
def getStoryDetailsV3 (s : ClientState) (issueKey : String) (out : FetchOutcome) :
    Except JsError JiraStoryDetails × List NetCall :=
  let call : NetCall := ⟨"GET", s.baseUrl ++ "/rest/api/3/issue/" ++ issueKey
    ++ "?fields=summary,description,customfield_10046"⟩
  match out with
  | .throw e => (.error e, [call])
  | .resp r =>
    if r.ok then
      match r.bodyJson with
      | .error e => (.error e, [call])
      | .ok data => (extractStoryDetails data, [call])
    else
      (.error ⟨"Failed to fetch story details (API v3): " ++ toString r.status ++ " "
        ++ r.statusText ++ " - " ++ r.bodyText⟩, [call])

/-- Method `JiraClient.getStoryDetailsV2`: as the v3 variant, with the v2 path
segment and dialect tag. -/
def getStoryDetailsV2 (s : ClientState) (issueKey : String) (out : FetchOutcome) :
    Except JsError JiraStoryDetails × List NetCall :=
  let call : NetCall := ⟨"GET", s.baseUrl ++ "/rest/api/2/issue/" ++ issueKey
    ++ "?fields=summary,description,customfield_10046"⟩
  match out with
  | .throw e => (.error e, [call])
  | .resp r =>
    if r.ok then
      match r.bodyJson with
      | .error e => (.error e, [call])
      | .ok data => (extractStoryDetails data, [call])
    else
      (.error ⟨"Failed to fetch story details (API v2): " ++ toString r.status ++ " "
        ++ r.statusText ++ " - " ++ r.bodyText⟩, [call])

/-- Method `JiraClient.getStoryDetails`: connection gate, v3 attempt, v2
fallback, aggregated two-dialect error when both fail. -/
def getStoryDetails (s : ClientState) (issueKey : String) (o3 o2 : FetchOutcome) :
    Except JsError JiraStoryDetails × List NetCall :=
  if s.isConnected then
    match getStoryDetailsV3 s issueKey o3 with
    | (.ok v, c3) => (.ok v, c3)
    | (.error e3, c3) =>
      match getStoryDetailsV2 s issueKey o2 with
      | (.ok v, c2) => (.ok v, c3 ++ c2)
      | (.error e2, c2) =>
        (.error ⟨"Failed to fetch story details: v3: " ++ errFallbackMsg e3
          ++ "; v2: " ++ errFallbackMsg e2⟩, c3 ++ c2)
  else
    (.error notConnectedError, [])

/-- The operations that mutate the session store: `connect` (with the
probe outcome the environment assigns to its `fetch`) and the
`/disconnect` route handler, which resets all four fields. -/
inductive Op where
  | connect (baseUrl email apiToken : String) (probe : FetchOutcome)
  | disconnect

/-- One step of the session store. -/
def stepOp (s : ClientState) : Op → ClientState
  | .connect u e t p => (connect s u e t p).1
  | .disconnect => ClientState.init

/-- Run a sequence of session operations from a starting state. -/
def runOps (s : ClientState) : List Op → ClientState
  | [] => s
  | op :: rest => runOps (stepOp s op) rest

/-- The credentials used by the most recent successful probe in the
operation sequence (base URL already normalized, as the probe uses the
stored, normalized value). -/
def lastSuccessfulProbe : List Op → Option (String × String × String)
  | [] => none
  | op :: rest =>
    match lastSuccessfulProbe rest with
    | some v => some v
    | none =>
      match op with
      | .connect u e t p =>
        if probeOk p then some (stripTrailingSlash u, e, t) else none
      | .disconnect => none

/-! ### Spec-side rendering of the rich-text extractor (section 4.4)

The spec describes documents as an ordered sequence of blocks where only
paragraph blocks with inline text spans are recognized.  The structured
types below render that description; `toJson` embeds them into the
runtime values the source function consumes, and `extractPlainTextSpec`
is written from the words of the spec sentence, to be compared with the
source-derived `extractTextFromADF`. -/

/-- An inline element: either one carrying a `text` value, or any other
inline node (no `text` field). -/
inductive AdfInline where
  | textSpan (text : String)
  | plainNode (ty : String)

/-- A block: a paragraph (whose `content` array may be missing), or a
block of any other type. -/
inductive AdfBlock where
  | paragraph (content : Option (List AdfInline))
  | otherBlock (ty : String) (content : Option (List AdfInline))

/-- A rich-text document: an optional ordered sequence of blocks. -/
structure AdfDoc where
  content : Option (List AdfBlock)

/-- Embed an inline element as the runtime object the remote sends. -/
def AdfInline.toJson : AdfInline → Json
  | .textSpan t => .obj [("type", .str "text"), ("text", .str t)]
  | .plainNode ty => .obj [("type", .str ty)]

/-- Embed a block as the runtime object the remote sends. -/
def AdfBlock.toJson : AdfBlock → Json
  | .paragraph none => .obj [("type", .str "paragraph")]
  | .paragraph (some xs) =>
    .obj [("type", .str "paragraph"), ("content", .arr (xs.map AdfInline.toJson))]
  | .otherBlock ty none => .obj [("type", .str ty)]
  | .otherBlock ty (some xs) =>
    .obj [("type", .str ty), ("content", .arr (xs.map AdfInline.toJson))]

/-- Embed a document as the runtime object the remote sends. -/
def AdfDoc.toJson : AdfDoc → Json
  | ⟨none⟩ => .obj []
  | ⟨some bs⟩ => .obj [("content", .arr (bs.map AdfBlock.toJson))]

/-- Concatenation of a list of strings. -/
def concatAll : List String → String
  | [] => ""
  | s :: rest => s ++ concatAll rest

/-- The text value an inline element contributes (empty when it has
none). -/
def AdfInline.textValue : AdfInline → String
  | .textSpan t => t
  | .plainNode _ => ""

/-- Spec sentence, per block: a paragraph with a content array yields
the concatenated text values of its inline elements followed by a
newline; blocks of any other type, or paragraphs without a content
array, contribute nothing. -/
def AdfBlock.plainText : AdfBlock → String
  | .paragraph (some xs) => concatAll (xs.map AdfInline.textValue) ++ "\n"
  | .paragraph none => ""
  | .otherBlock _ _ => ""

/-- Spec sentence, whole document: concatenate the block contributions
and trim the result; a missing top-level content array yields the empty
string. -/
def extractPlainTextSpec (d : AdfDoc) : String :=
  jsTrim (concatAll ((d.content.getD []).map AdfBlock.plainText))

/-- A block encoding is faithful only when a non-paragraph block does
not accidentally carry the type string `paragraph`. -/
def AdfBlock.wfb : AdfBlock → Bool
  | .paragraph _ => true
  | .otherBlock ty _ => ty != "paragraph"

/-- Well-formedness of a structured document. -/
def AdfDoc.wfb (d : AdfDoc) : Bool :=
  (d.content.getD []).all AdfBlock.wfb

/-- Containment: `needle` occurs as a contiguous substring of `hay`. -/
def substringOf (needle hay : String) : Prop :=
  ∃ pre suf : List Char, hay.data = pre ++ needle.data ++ suf

/-! ### Helper lemmas -/

theorem adfInlineFold_toJson (xs : List AdfInline) (acc : String) :
    adfInlineFold (xs.map AdfInline.toJson) acc
      = .ok (acc ++ concatAll (xs.map AdfInline.textValue)) := by
  induction xs generalizing acc with
  | nil => simp [adfInlineFold, concatAll]
  | cons x rest ih =>
    cases x with
    | textSpan t =>
      by_cases ht : t = ""
      · subst ht
        simp [adfInlineFold, AdfInline.toJson, jsGet, jsTruthy, Json.truthy, ih,
          AdfInline.textValue, concatAll, List.lookup]
      · simp [adfInlineFold, AdfInline.toJson, jsGet, jsTruthy, Json.truthy, ih, ht,
          AdfInline.textValue, concatAll, jsToString, String.append_assoc, List.lookup]
    | plainNode ty =>
      simp [adfInlineFold, AdfInline.toJson, jsGet, jsTruthy, ih, AdfInline.textValue,
        concatAll, List.lookup]

theorem adfBlockFold_toJson (bs : List AdfBlock) (acc : String)
    (h : ∀ b ∈ bs, b.wfb = true) :
    adfBlockFold (bs.map AdfBlock.toJson) acc
      = .ok (acc ++ concatAll (bs.map AdfBlock.plainText)) := by
  induction bs generalizing acc with
  | nil => simp [adfBlockFold, concatAll]
  | cons b rest ih =>
    have hb : b.wfb = true := h b (List.mem_cons_self b rest)
    have hrest : ∀ x ∈ rest, x.wfb = true := fun x hx => h x (List.mem_cons_of_mem _ hx)
    have ihr := fun a => ih a hrest
    cases b with
    | paragraph c =>
      cases c with
      | none =>
        simp [adfBlockFold, AdfBlock.toJson, jsGet, isParagraphType, jsTruthy,
          List.lookup, ihr, AdfBlock.plainText, concatAll]
      | some xs =>
        simp [adfBlockFold, AdfBlock.toJson, jsGet, isParagraphType, jsTruthy,
          Json.truthy, List.lookup, jsForOf, adfInlineFold_toJson, ihr,
          AdfBlock.plainText, concatAll, String.append_assoc]
    | otherBlock ty c =>
      have hty : (ty == "paragraph") = false := by
        simpa [AdfBlock.wfb] using hb
      cases c with
      | none =>
        simp [adfBlockFold, AdfBlock.toJson, jsGet, isParagraphType, List.lookup,
          hty, ihr, AdfBlock.plainText, concatAll]
      | some xs =>
        simp [adfBlockFold, AdfBlock.toJson, jsGet, isParagraphType, List.lookup,
          hty, ihr, AdfBlock.plainText, concatAll]

theorem extractTextFromADF_toJson (d : AdfDoc) (hwf : d.wfb = true) :
    extractTextFromADF d.toJson = .ok (extractPlainTextSpec d) := by
  obtain ⟨c⟩ := d
  cases c with
  | none =>
    simp [extractTextFromADF, AdfDoc.toJson, jsGet, jsTruthy, List.lookup,
      extractPlainTextSpec, concatAll]
  | some bs =>
    have hb : ∀ b ∈ bs, AdfBlock.wfb b = true := by
      simpa [AdfDoc.wfb, List.all_eq_true] using hwf
    simp [extractTextFromADF, AdfDoc.toJson, jsGet, jsTruthy, Json.truthy,
      List.lookup, jsForOf, adfBlockFold_toJson bs "" hb, extractPlainTextSpec]

theorem Json.truthy_obj (l : List (String × Json)) : Json.truthy (.obj l) = true := rfl

theorem Json.truthy_arr (xs : List Json) : Json.truthy (.arr xs) = true := rfl

theorem substringOf_parts (pre mid suf : String) :
    substringOf mid (pre ++ mid ++ suf) :=
  ⟨pre.data, suf.data, by simp [String.data_append]⟩

theorem substringOf_mono_right (a b hay : String) (h : substringOf (a ++ b) hay) :
    substringOf b hay := by
  rcases h with ⟨pre, suf, hh⟩
  exact ⟨pre ++ a.data, suf, by simpa [String.data_append, List.append_assoc] using hh⟩

theorem substringOf_empty (hay : String) : substringOf "" hay :=
  ⟨hay.data, [], by simp⟩

theorem agg_substrings (lit1 tag3 m3 sep tag2 m2 : String) :
    substringOf (tag3 ++ m3) ((lit1 ++ tag3) ++ m3 ++ (sep ++ tag2) ++ m2)
    ∧ substringOf (tag2 ++ m2) ((lit1 ++ tag3) ++ m3 ++ (sep ++ tag2) ++ m2) := by
  constructor
  · exact ⟨lit1.data, ((sep ++ tag2) ++ m2).data,
      by simp [String.data_append, List.append_assoc]⟩
  · exact ⟨((lit1 ++ tag3) ++ m3 ++ sep).data, [],
      by simp [String.data_append, List.append_assoc]⟩

theorem substringOf_msg_of_fallback (e : JsError) (hay : String)
    (h : substringOf (errFallbackMsg e) hay) : substringOf e.message hay := by
  by_cases hm : e.message = ""
  · rw [hm]; exact substringOf_empty hay
  · rwa [errFallbackMsg, if_neg hm] at h

/-! ### Claim theorems -/

/-- Claim C1: calling `getStories` or `getStoryDetails` while the
connected flag is false fails immediately with the not-connected error
and issues zero network calls against either dialect. -/
theorem not_connected_fails_without_network (s : ClientState)
    (o3 o2 o3d o2d : FetchOutcome) (key : String)
    (h : isConnectedToJira s = false) :
    getStories s o3 o2 = (.error notConnectedError, [])
    ∧ getStoryDetails s key o3d o2d = (.error notConnectedError, []) := by
  have hs : s.isConnected = false := h
  exact ⟨by simp [getStories, hs], by simp [getStoryDetails, hs]⟩

theorem not_connected_fails_without_network_witness :
    getStories ClientState.init (.throw ⟨"x3"⟩) (.throw ⟨"x2"⟩)
        = (.error notConnectedError, [])
    ∧ getStoryDetails ClientState.init "PROJ-1" (.throw ⟨"y3"⟩) (.throw ⟨"y2"⟩)
        = (.error notConnectedError, []) :=
  not_connected_fails_without_network ClientState.init (.throw ⟨"x3"⟩)
    (.throw ⟨"x2"⟩) (.throw ⟨"y3"⟩) (.throw ⟨"y2"⟩) "PROJ-1" rfl

/-- Claim C4: for every credential triple whose identity probe fails
(non-2xx response or transport error), `connect` returns false (the
function is total, so nothing is raised to the caller), the client is
not connected afterwards, and `getConnectionInfo` returns null. -/
theorem probe_failure_connect_false (s : ClientState) (u em tok : String)
    (p : FetchOutcome) (hp : probeOk p = false) :
    (connect s u em tok p).2 = false
    ∧ isConnectedToJira (connect s u em tok p).1 = false
    ∧ getConnectionInfo (connect s u em tok p).1 = none := by
  cases p with
  | throw err => simp [connect, isConnectedToJira, getConnectionInfo]
  | resp r =>
    have hr : r.ok = false := by simpa [probeOk] using hp
    simp [connect, hr, isConnectedToJira, getConnectionInfo]

theorem probe_failure_connect_false_witness :
    (connect ClientState.init "https://x.example/" "a@b.c" "tok"
        (.resp ⟨false, 401, "Unauthorized", "", .ok .null⟩)).2 = false
    ∧ isConnectedToJira (connect ClientState.init "https://x.example/" "a@b.c" "tok"
        (.resp ⟨false, 401, "Unauthorized", "", .ok .null⟩)).1 = false
    ∧ getConnectionInfo (connect ClientState.init "https://x.example/" "a@b.c" "tok"
        (.resp ⟨false, 401, "Unauthorized", "", .ok .null⟩)).1 = none :=
  probe_failure_connect_false ClientState.init "https://x.example/" "a@b.c" "tok"
    (.resp ⟨false, 401, "Unauthorized", "", .ok .null⟩) rfl

/-- Claim C5: after a successful `connect(url, id, secret)`,
`getConnectionInfo` returns exactly the normalized base URL (one
trailing slash stripped) and the identity; the result is independent of
the secret (which its type cannot carry); the two spec URLs normalize to
the same stored base URL; and only a single trailing slash is
stripped. -/
theorem connect_success_connection_info (s : ClientState) (u id secret : String)
    (p : FetchOutcome) (hp : probeOk p = true) :
    (connect s u id secret p).2 = true
    ∧ getConnectionInfo (connect s u id secret p).1 = some (stripTrailingSlash u, id)
    ∧ (∀ secret2, getConnectionInfo (connect s u id secret2 p).1
        = some (stripTrailingSlash u, id))
    ∧ stripTrailingSlash "https://x.example/" = "https://x.example"
    ∧ stripTrailingSlash "https://x.example" = "https://x.example"
    ∧ stripTrailingSlash "https://x.example//" = "https://x.example/"
    ∧ (∀ v : String, stripTrailingSlash (v ++ "/") = v) := by
  cases p with
  | throw err => simp [probeOk] at hp
  | resp r =>
    have hr : r.ok = true := by simpa [probeOk] using hp
    refine ⟨by simp [connect, hr], by simp [connect, hr, getConnectionInfo],
      fun secret2 => by simp [connect, hr, getConnectionInfo], by decide, by decide,
      by decide, fun v => ?_⟩
    have hdata : (v ++ "/").data = v.data ++ ['/'] := by
      simp [String.data_append]
    have hlast : (v ++ "/").data.getLast? = some '/' := by
      rw [hdata]; exact List.getLast?_concat v.data
    rw [stripTrailingSlash, if_pos hlast, hdata, List.dropLast_concat]

theorem connect_success_connection_info_witness :
    (connect ClientState.init "https://x.example/" "me@x.example" "secret-token"
        (.resp ⟨true, 200, "OK", "\x7b\x7d", .ok (.obj [])⟩)).2 = true
    ∧ getConnectionInfo (connect ClientState.init "https://x.example/" "me@x.example"
        "secret-token" (.resp ⟨true, 200, "OK", "\x7b\x7d", .ok (.obj [])⟩)).1
        = some (stripTrailingSlash "https://x.example/", "me@x.example")
    ∧ (∀ secret2, getConnectionInfo (connect ClientState.init "https://x.example/"
        "me@x.example" secret2 (.resp ⟨true, 200, "OK", "\x7b\x7d", .ok (.obj [])⟩)).1
        = some (stripTrailingSlash "https://x.example/", "me@x.example"))
    ∧ stripTrailingSlash "https://x.example/" = "https://x.example"
    ∧ stripTrailingSlash "https://x.example" = "https://x.example"
    ∧ stripTrailingSlash "https://x.example//" = "https://x.example/"
    ∧ (∀ v : String, stripTrailingSlash (v ++ "/") = v) :=
  connect_success_connection_info ClientState.init "https://x.example/" "me@x.example"
    "secret-token" (.resp ⟨true, 200, "OK", "\x7b\x7d", .ok (.obj [])⟩) rfl

/-- Claim C10: every `connect` call overwrites the stored base URL
(normalized), email and API token with its arguments independently of
the probe outcome; only the connected flag (and the returned boolean)
follow the probe; and after a failed connect the connection info is
null even though the credentials were replaced. -/
theorem connect_overwrites_before_probe (s : ClientState) (u em tok : String)
    (p : FetchOutcome) :
    (connect s u em tok p).1.baseUrl = stripTrailingSlash u
    ∧ (connect s u em tok p).1.email = em
    ∧ (connect s u em tok p).1.apiToken = tok
    ∧ (connect s u em tok p).1.isConnected = probeOk p
    ∧ (connect s u em tok p).2 = probeOk p
    ∧ (probeOk p = false → getConnectionInfo (connect s u em tok p).1 = none) := by
  cases p with
  | throw err => simp [connect, probeOk, getConnectionInfo]
  | resp r => cases hr : r.ok <;> simp [connect, probeOk, hr, getConnectionInfo]

theorem connect_overwrites_before_probe_witness :
    (connect ⟨"https://old.example", "old@e.x", "old-token", true⟩ "https://y.example/"
        "new@e.x" "new-token" (.throw ⟨"connect ECONNREFUSED"⟩)).1.baseUrl
      = stripTrailingSlash "https://y.example/"
    ∧ (connect ⟨"https://old.example", "old@e.x", "old-token", true⟩ "https://y.example/"
        "new@e.x" "new-token" (.throw ⟨"connect ECONNREFUSED"⟩)).1.email = "new@e.x"
    ∧ (connect ⟨"https://old.example", "old@e.x", "old-token", true⟩ "https://y.example/"
        "new@e.x" "new-token" (.throw ⟨"connect ECONNREFUSED"⟩)).1.apiToken = "new-token"
    ∧ (connect ⟨"https://old.example", "old@e.x", "old-token", true⟩ "https://y.example/"
        "new@e.x" "new-token" (.throw ⟨"connect ECONNREFUSED"⟩)).1.isConnected
      = probeOk (.throw ⟨"connect ECONNREFUSED"⟩)
    ∧ (connect ⟨"https://old.example", "old@e.x", "old-token", true⟩ "https://y.example/"
        "new@e.x" "new-token" (.throw ⟨"connect ECONNREFUSED"⟩)).2
      = probeOk (.throw ⟨"connect ECONNREFUSED"⟩)
    ∧ (probeOk (FetchOutcome.throw ⟨"connect ECONNREFUSED"⟩) = false →
        getConnectionInfo (connect ⟨"https://old.example", "old@e.x", "old-token", true⟩
          "https://y.example/" "new@e.x" "new-token"
          (.throw ⟨"connect ECONNREFUSED"⟩)).1 = none) :=
  connect_overwrites_before_probe ⟨"https://old.example", "old@e.x", "old-token", true⟩
    "https://y.example/" "new@e.x" "new-token" (.throw ⟨"connect ECONNREFUSED"⟩)

/-- Claim C6: on every structured rich-text document, the extractor
returns the concatenation, over paragraph blocks with a content array,
of the text values of their inline elements, with a newline appended
after each such paragraph, trimmed; blocks of other types and
paragraphs lacking a content array contribute nothing; and the three
concrete examples of the spec evaluate as stated. -/
theorem extractor_matches_spec (d : AdfDoc) (hwf : d.wfb = true) :
    extractTextFromADF d.toJson = .ok (extractPlainTextSpec d)
    ∧ extractTextFromADF (.obj [("content", .arr [.obj [("type", .str "paragraph"),
        ("content", .arr [.obj [("text", .str "A")], .obj [("text", .str "B")]])]])])
      = .ok "AB"
    ∧ extractTextFromADF (.obj [("content", .arr [.obj [("type", .str "other")]])])
      = .ok ""
    ∧ extractTextFromADF (.obj []) = .ok "" := by
  refine ⟨extractTextFromADF_toJson d hwf, ?_, ?_, ?_⟩ <;> rfl

theorem extractor_matches_spec_witness :
    extractTextFromADF (AdfDoc.toJson ⟨some [AdfBlock.paragraph
        (some [AdfInline.textSpan "Hello", AdfInline.plainNode "hardBreak",
          AdfInline.textSpan "World"]),
        AdfBlock.otherBlock "bulletList" (some [AdfInline.textSpan "item"]),
        AdfBlock.paragraph none]⟩)
      = .ok (extractPlainTextSpec ⟨some [AdfBlock.paragraph
        (some [AdfInline.textSpan "Hello", AdfInline.plainNode "hardBreak",
          AdfInline.textSpan "World"]),
        AdfBlock.otherBlock "bulletList" (some [AdfInline.textSpan "item"]),
        AdfBlock.paragraph none]⟩) :=
  (extractor_matches_spec ⟨some [AdfBlock.paragraph
    (some [AdfInline.textSpan "Hello", AdfInline.plainNode "hardBreak",
      AdfInline.textSpan "World"]),
    AdfBlock.otherBlock "bulletList" (some [AdfInline.textSpan "item"]),
    AdfBlock.paragraph none]⟩ (by decide)).1

/-- Claim C2: when the v3 attempt and the v2 attempt of either logical
operation both fail, the operation raises one aggregated error whose
message carries both dialect failure messages, each behind its dialect
tag; a v3 failure is never surfaced alone. -/
theorem both_dialects_fail_aggregated_message (s : ClientState)
    (o3 o2 o3d o2d : FetchOutcome) (key : String) (e3 e2 f3 f2 : JsError)
    (hconn : s.isConnected = true)
    (h3 : (getStoriesV3 s o3).1 = .error e3)
    (h2 : (getStoriesV2 s o2).1 = .error e2)
    (g3 : (getStoryDetailsV3 s key o3d).1 = .error f3)
    (g2 : (getStoryDetailsV2 s key o2d).1 = .error f2) :
    (∃ agg : JsError, (getStories s o3 o2).1 = .error agg
      ∧ substringOf ("v3: " ++ errFallbackMsg e3) agg.message
      ∧ substringOf ("v2: " ++ errFallbackMsg e2) agg.message
      ∧ substringOf e3.message agg.message
      ∧ substringOf e2.message agg.message)
    ∧ (∃ agg : JsError, (getStoryDetails s key o3d o2d).1 = .error agg
      ∧ substringOf ("v3: " ++ errFallbackMsg f3) agg.message
      ∧ substringOf ("v2: " ++ errFallbackMsg f2) agg.message
      ∧ substringOf f3.message agg.message
      ∧ substringOf f2.message agg.message) := by
  constructor
  · rcases hv3 : getStoriesV3 s o3 with ⟨r3, c3⟩
    rcases hv2 : getStoriesV2 s o2 with ⟨r2, c2⟩
    rw [hv3] at h3; rw [hv2] at h2
    simp only at h3 h2
    subst h3; subst h2
    have hs := agg_substrings "Failed to fetch stories: " "v3: " (errFallbackMsg e3)
      "; " "v2: " (errFallbackMsg e2)
    exact ⟨⟨"Failed to fetch stories: v3: " ++ errFallbackMsg e3 ++ "; v2: "
      ++ errFallbackMsg e2⟩, by simp [getStories, hconn, hv3, hv2], hs.1, hs.2,
      substringOf_msg_of_fallback _ _ (substringOf_mono_right _ _ _ hs.1),
      substringOf_msg_of_fallback _ _ (substringOf_mono_right _ _ _ hs.2)⟩
  · rcases hv3 : getStoryDetailsV3 s key o3d with ⟨r3, c3⟩
    rcases hv2 : getStoryDetailsV2 s key o2d with ⟨r2, c2⟩
    rw [hv3] at g3; rw [hv2] at g2
    simp only at g3 g2
    subst g3; subst g2
    have hs := agg_substrings "Failed to fetch story details: " "v3: "
      (errFallbackMsg f3) "; " "v2: " (errFallbackMsg f2)
    exact ⟨⟨"Failed to fetch story details: v3: " ++ errFallbackMsg f3 ++ "; v2: "
      ++ errFallbackMsg f2⟩, by simp [getStoryDetails, hconn, hv3, hv2], hs.1, hs.2,
      substringOf_msg_of_fallback _ _ (substringOf_mono_right _ _ _ hs.1),
      substringOf_msg_of_fallback _ _ (substringOf_mono_right _ _ _ hs.2)⟩

theorem both_dialects_fail_aggregated_message_witness :
    (∃ agg : JsError, (getStories ⟨"https://x.example", "me@x", "tok", true⟩
        (.throw ⟨"boom3"⟩) (.throw ⟨"boom2"⟩)).1 = .error agg
      ∧ substringOf ("v3: " ++ errFallbackMsg ⟨"boom3"⟩) agg.message
      ∧ substringOf ("v2: " ++ errFallbackMsg ⟨"boom2"⟩) agg.message
      ∧ substringOf (JsError.mk "boom3").message agg.message
      ∧ substringOf (JsError.mk "boom2").message agg.message)
    ∧ (∃ agg : JsError, (getStoryDetails ⟨"https://x.example", "me@x", "tok", true⟩
        "PROJ-1" (.throw ⟨"det3"⟩) (.throw ⟨"det2"⟩)).1 = .error agg
      ∧ substringOf ("v3: " ++ errFallbackMsg ⟨"det3"⟩) agg.message
      ∧ substringOf ("v2: " ++ errFallbackMsg ⟨"det2"⟩) agg.message
      ∧ substringOf (JsError.mk "det3").message agg.message
      ∧ substringOf (JsError.mk "det2").message agg.message) :=
  both_dialects_fail_aggregated_message ⟨"https://x.example", "me@x", "tok", true⟩
    (.throw ⟨"boom3"⟩) (.throw ⟨"boom2"⟩) (.throw ⟨"det3"⟩) (.throw ⟨"det2"⟩)
    "PROJ-1" ⟨"boom3"⟩ ⟨"boom2"⟩ ⟨"det3"⟩ ⟨"det2"⟩ rfl rfl rfl rfl rfl

/-- Claim C3: when the v3 attempt of `getStories` fails (any thrown
error, including non-2xx) and the v2 attempt succeeds, `getStories`
returns the v2 value with no error; and whenever either dialect
succeeds, the value is that issues array of the response body, or the empty
array when the issues field is absent. -/
theorem fallback_returns_issues_of_succeeding_dialect (s : ClientState)
    (o3 o2 : FetchOutcome) (e3 : JsError)
    (hconn : s.isConnected = true)
    (h3 : (getStoriesV3 s o3).1 = .error e3) :
    (∀ v : Json, (getStoriesV2 s o2).1 = .ok v → (getStories s o3 o2).1 = .ok v)
    ∧ (∀ (o3b o2b : FetchOutcome) (v : Json), (getStoriesV3 s o3b).1 = .ok v →
        (getStories s o3b o2b).1 = .ok v)
    ∧ (∀ (r : HttpResponse) (d : Json) (a : List Json), r.ok = true →
        r.bodyJson = .ok d → jsGet d "issues" = .ok (some (.arr a)) →
        (getStoriesV3 s (.resp r)).1 = .ok (.arr a)
        ∧ (getStoriesV2 s (.resp r)).1 = .ok (.arr a))
    ∧ (∀ (r : HttpResponse) (d : Json), r.ok = true → r.bodyJson = .ok d →
        jsGet d "issues" = .ok none →
        (getStoriesV3 s (.resp r)).1 = .ok (.arr [])
        ∧ (getStoriesV2 s (.resp r)).1 = .ok (.arr []))
    ∧ (∀ (r : HttpResponse) (d : Json) (a : List Json), r.ok = true →
        r.bodyJson = .ok d → jsGet d "issues" = .ok (some (.arr a)) →
        (getStories s o3 (.resp r)).1 = .ok (.arr a)) := by
  have part1 : ∀ v : Json, (getStoriesV2 s o2).1 = .ok v →
      (getStories s o3 o2).1 = .ok v := by
    intro v hv
    rcases hv3 : getStoriesV3 s o3 with ⟨r3, c3⟩
    rcases hv2 : getStoriesV2 s o2 with ⟨r2, c2⟩
    rw [hv3] at h3; rw [hv2] at hv
    simp only at h3 hv
    subst h3; subst hv
    simp [getStories, hconn, hv3, hv2]
  have part3 : ∀ (r : HttpResponse) (d : Json) (a : List Json), r.ok = true →
      r.bodyJson = .ok d → jsGet d "issues" = .ok (some (.arr a)) →
      (getStoriesV3 s (.resp r)).1 = .ok (.arr a)
      ∧ (getStoriesV2 s (.resp r)).1 = .ok (.arr a) := by
    intro r d a hok hbj hjg
    constructor <;>
      simp [getStoriesV3, getStoriesV2, hok, hbj, hjg, jsTruthy, Json.truthy]
  refine ⟨part1, ?_, part3, ?_, ?_⟩
  · intro o3b o2b v hv
    rcases hv3b : getStoriesV3 s o3b with ⟨r3, c3⟩
    rw [hv3b] at hv
    simp only at hv
    subst hv
    simp [getStories, hconn, hv3b]
  · intro r d hok hbj hjg
    constructor <;>
      simp [getStoriesV3, getStoriesV2, hok, hbj, hjg, jsTruthy]
  · intro r d a hok hbj hjg
    have hv2ok := (part3 r d a hok hbj hjg).2
    rcases hv3 : getStoriesV3 s o3 with ⟨r3, c3⟩
    rcases hv2 : getStoriesV2 s (.resp r) with ⟨r2, c2⟩
    rw [hv3] at h3; rw [hv2] at hv2ok
    simp only at h3 hv2ok
    subst h3; subst hv2ok
    simp [getStories, hconn, hv3, hv2]

theorem fallback_returns_issues_of_succeeding_dialect_witness :
    (getStories ⟨"https://x.example", "me@x", "tok", true⟩
        (.resp ⟨false, 404, "Not Found", "nf", .ok .null⟩)
        (.resp ⟨true, 200, "OK", "body", .ok (.obj [("issues",
          .arr [.obj [("key", .str "S-1")]])])⟩)).1
      = .ok (.arr [.obj [("key", .str "S-1")]]) :=
  (fallback_returns_issues_of_succeeding_dialect
    ⟨"https://x.example", "me@x", "tok", true⟩
    (.resp ⟨false, 404, "Not Found", "nf", .ok .null⟩)
    (.resp ⟨true, 200, "OK", "body", .ok (.obj [("issues",
      .arr [.obj [("key", .str "S-1")]])])⟩)
    ⟨"Failed to fetch stories (API v3): 404 Not Found - nf"⟩
    rfl rfl).2.2.2.2 _ _ _ rfl rfl rfl

/-- Claim C7: when the description field of the remote record is a plain
string, the returned story detail carries that string verbatim, and the
result does not depend on the rich-text extractor at all (it is not
applied). -/
theorem plain_string_description_verbatim (data fields : Json) (str : String)
    (hf : jsGet data "fields" = .ok (some fields))
    (hd : jsGet fields "description" = .ok (some (.str str))) :
    (∀ ex, extractStoryDetailsWith ex data = extractStoryDetails data)
    ∧ ∃ det : JiraStoryDetails, extractStoryDetails data = .ok det
        ∧ det.description = str := by
  cases data with
  | obj l =>
    cases fields with
    | obj m =>
      simp only [jsGet, Except.ok.injEq] at hf hd
      constructor
      · intro ex
        by_cases hstr : str = "" <;>
          simp [extractStoryDetailsWith, extractStoryDetails, jsGet, hf, hd,
            jsTruthy, Json.truthy, jsTypeofString, jsTypeofObject, hstr]
      · refine ⟨⟨l.lookup "key",
          (if jsTruthy (m.lookup "summary")
            then (m.lookup "summary").getD .null else .str ""),
          str,
          (if jsTruthy (m.lookup "customfield_10046")
            then (m.lookup "customfield_10046").getD .null else .str "")⟩, ?_, rfl⟩
        by_cases hstr : str = "" <;>
          simp [extractStoryDetails, extractStoryDetailsWith, jsGet, hf, hd,
            jsTruthy, Json.truthy, jsTypeofString, jsTypeofObject, hstr]
    | null => simp [jsGet] at hd
    | bool b => simp [jsGet] at hd
    | num n => simp [jsGet] at hd
    | str s2 => simp [jsGet] at hd
    | arr xs => simp [jsGet] at hd
  | null => simp [jsGet] at hf
  | bool b => simp [jsGet] at hf
  | num n => simp [jsGet] at hf
  | str s2 => simp [jsGet] at hf
  | arr xs => simp [jsGet] at hf

theorem plain_string_description_verbatim_witness :
    (∀ ex, extractStoryDetailsWith ex (.obj [("key", .str "K-7"), ("fields",
        .obj [("summary", .str "S"), ("description", .str "plain text")])])
      = extractStoryDetails (.obj [("key", .str "K-7"), ("fields",
        .obj [("summary", .str "S"), ("description", .str "plain text")])]))
    ∧ ∃ det : JiraStoryDetails, extractStoryDetails (.obj [("key", .str "K-7"),
        ("fields", .obj [("summary", .str "S"), ("description", .str "plain text")])])
        = .ok det ∧ det.description = "plain text" :=
  plain_string_description_verbatim (.obj [("key", .str "K-7"), ("fields",
    .obj [("summary", .str "S"), ("description", .str "plain text")])])
    (.obj [("summary", .str "S"), ("description", .str "plain text")])
    "plain text" rfl rfl

/-- Claim C8, counterexample: on a record whose acceptance-criteria
custom field holds a structured rich-text document, the story detail
carries the raw document in `acceptanceCriteria`, not its extracted
plain text `AC` — the extractor is not applied to that field. -/
theorem acceptance_criteria_not_extracted_cex :
    extractStoryDetails (.obj [("key", .str "PROJ-1"), ("fields", .obj
      [("summary", .str "Title"), ("description", .str "d"),
        ("customfield_10046", .obj [("content", .arr [.obj
          [("type", .str "paragraph"),
            ("content", .arr [.obj [("text", .str "AC")]])]])])])])
      = .ok ⟨some (.str "PROJ-1"), .str "Title", "d",
          .obj [("content", .arr [.obj [("type", .str "paragraph"),
            ("content", .arr [.obj [("text", .str "AC")]])]])]⟩
    ∧ extractTextFromADF (.obj [("content", .arr [.obj [("type", .str "paragraph"),
        ("content", .arr [.obj [("text", .str "AC")]])]])]) = .ok "AC"
    ∧ Json.obj [("content", .arr [.obj [("type", .str "paragraph"),
        ("content", .arr [.obj [("text", .str "AC")]])]])] ≠ .str "AC" := by
  refine ⟨rfl, rfl, ?_⟩
  intro h
  exact Json.noConfusion h

/-- Claim C8 (amended): the raw remote record feeds the rich-text
extractor for the description field only; the acceptance-criteria field
of the result is the raw value of the custom field (whatever its
shape), not its extracted text. -/
theorem acceptance_criteria_raw_copy (data fields adf c ac : Json) (txt : String)
    (hf : jsGet data "fields" = .ok (some fields))
    (hd : jsGet fields "description" = .ok (some adf))
    (hc : jsGet adf "content" = .ok (some c))
    (hctr : c.truthy = true)
    (hx : extractTextFromADF adf = .ok txt)
    (hac : jsGet fields "customfield_10046" = .ok (some ac))
    (hactr : ac.truthy = true) :
    ∃ det : JiraStoryDetails, extractStoryDetails data = .ok det
      ∧ det.description = txt
      ∧ det.acceptanceCriteria = ac := by
  cases data with
  | obj l =>
    cases fields with
    | obj m =>
      cases adf with
      | obj k =>
        simp only [jsGet, Except.ok.injEq] at hf hd hc hac
        refine ⟨⟨l.lookup "key",
          (if jsTruthy (m.lookup "summary")
            then (m.lookup "summary").getD .null else .str ""),
          txt, ac⟩, ?_, rfl, rfl⟩
        simp [extractStoryDetails, extractStoryDetailsWith, jsGet, hf, hd, hc, hac,
          jsTruthy, Json.truthy_obj, jsTypeofString, jsTypeofObject, hctr, hactr, hx]
      | null => simp [jsGet] at hc
      | bool b => simp [jsGet] at hc
      | num n => simp [jsGet] at hc
      | str s2 => simp [jsGet] at hc
      | arr xs => simp [jsGet] at hc
    | null => simp [jsGet] at hd
    | bool b => simp [jsGet] at hd
    | num n => simp [jsGet] at hd
    | str s2 => simp [jsGet] at hd
    | arr xs => simp [jsGet] at hd
  | null => simp [jsGet] at hf
  | bool b => simp [jsGet] at hf
  | num n => simp [jsGet] at hf
  | str s2 => simp [jsGet] at hf
  | arr xs => simp [jsGet] at hf

theorem acceptance_criteria_raw_copy_witness :
    ∃ det : JiraStoryDetails, extractStoryDetails (.obj [("key", .str "K"),
        ("fields", .obj [("summary", .str "S"),
          ("description", .obj [("content", .arr [.obj [("type", .str "paragraph"),
            ("content", .arr [.obj [("text", .str "D")]])]])]),
          ("customfield_10046", .str "Given When Then")])]) = .ok det
      ∧ det.description = "D"
      ∧ det.acceptanceCriteria = .str "Given When Then" :=
  acceptance_criteria_raw_copy (.obj [("key", .str "K"),
      ("fields", .obj [("summary", .str "S"),
        ("description", .obj [("content", .arr [.obj [("type", .str "paragraph"),
          ("content", .arr [.obj [("text", .str "D")]])]])]),
        ("customfield_10046", .str "Given When Then")])])
    (.obj [("summary", .str "S"),
      ("description", .obj [("content", .arr [.obj [("type", .str "paragraph"),
        ("content", .arr [.obj [("text", .str "D")]])]])]),
      ("customfield_10046", .str "Given When Then")])
    (.obj [("content", .arr [.obj [("type", .str "paragraph"),
      ("content", .arr [.obj [("text", .str "D")]])]])])
    (.arr [.obj [("type", .str "paragraph"),
      ("content", .arr [.obj [("text", .str "D")]])]])
    (.str "Given When Then") "D" rfl rfl rfl rfl rfl rfl rfl

theorem runOps_connected_lastProbe (ops : List Op) :
    ∀ s0 : ClientState, (runOps s0 ops).isConnected = true →
      lastSuccessfulProbe ops = some ((runOps s0 ops).baseUrl,
        (runOps s0 ops).email, (runOps s0 ops).apiToken)
      ∨ (lastSuccessfulProbe ops = none ∧ runOps s0 ops = s0) := by
  induction ops with
  | nil => intro s0 _; exact Or.inr ⟨rfl, rfl⟩
  | cons op rest ih =>
    intro s0 hconn
    have hrun : runOps s0 (op :: rest) = runOps (stepOp s0 op) rest := rfl
    rw [hrun] at hconn ⊢
    rcases ih (stepOp s0 op) hconn with hl | ⟨hnone, heq⟩
    · left
      simp [lastSuccessfulProbe, hl]
    · rw [heq] at hconn ⊢
      cases op with
      | disconnect => simp [stepOp, ClientState.init] at hconn
      | connect u em tok p =>
        cases p with
        | throw err => simp [stepOp, connect] at hconn
        | resp r =>
          cases hr : r.ok with
          | false => simp [stepOp, connect, hr] at hconn
          | true =>
            left
            simp [lastSuccessfulProbe, hnone, probeOk, hr, stepOp, connect]

/-- Claim C9: in every state reachable from the initial client state by
any sequence of connect and disconnect operations, a true connected
flag implies that the stored base URL (normalized), email and API token
are exactly the credentials used by the most recent successful probe
call. -/
theorem connected_implies_last_probe_credentials (ops : List Op)
    (h : (runOps ClientState.init ops).isConnected = true) :
    lastSuccessfulProbe ops = some ((runOps ClientState.init ops).baseUrl,
      (runOps ClientState.init ops).email, (runOps ClientState.init ops).apiToken) := by
  rcases runOps_connected_lastProbe ops ClientState.init h with hl | ⟨_, heq⟩
  · exact hl
  · rw [heq] at h
    simp [ClientState.init] at h

theorem connected_implies_last_probe_credentials_witness :
    lastSuccessfulProbe [Op.connect "https://a.example/" "a@a" "t1"
        (.resp ⟨false, 401, "Unauthorized", "", .ok .null⟩),
      Op.connect "https://x.example/" "me@x" "tok"
        (.resp ⟨true, 200, "OK", "\x7b\x7d", .ok (.obj [])⟩)]
      = some ((runOps ClientState.init [Op.connect "https://a.example/" "a@a" "t1"
          (.resp ⟨false, 401, "Unauthorized", "", .ok .null⟩),
        Op.connect "https://x.example/" "me@x" "tok"
          (.resp ⟨true, 200, "OK", "\x7b\x7d", .ok (.obj [])⟩)]).baseUrl,
        (runOps ClientState.init [Op.connect "https://a.example/" "a@a" "t1"
            (.resp ⟨false, 401, "Unauthorized", "", .ok .null⟩),
          Op.connect "https://x.example/" "me@x" "tok"
            (.resp ⟨true, 200, "OK", "\x7b\x7d", .ok (.obj [])⟩)]).email,
        (runOps ClientState.init [Op.connect "https://a.example/" "a@a" "t1"
            (.resp ⟨false, 401, "Unauthorized", "", .ok .null⟩),
          Op.connect "https://x.example/" "me@x" "tok"
            (.resp ⟨true, 200, "OK", "\x7b\x7d", .ok (.obj [])⟩)]).apiToken) :=
  connected_implies_last_probe_credentials [Op.connect "https://a.example/" "a@a" "t1"
      (.resp ⟨false, 401, "Unauthorized", "", .ok .null⟩),
    Op.connect "https://x.example/" "me@x" "tok"
      (.resp ⟨true, 200, "OK", "\x7b\x7d", .ok (.obj [])⟩)] (by decide)

end GenAI
